import Mathlib

/-!
Verification of the CatPomodoro OneChain game against its specification.

The on-chain part is a shallow embedding of the Move modules
`pomodoro_game::catnft` and `pomodoro_game::pomodoro_game`; u8/u64 values
are modelled as `Nat`, and any Move abort (explicit `abort`, failed
`assert!`, arithmetic overflow, or a narrowing `as u8` cast of a value
above 255) is modelled by returning `none`, so `none` means the whole
transaction has no effect.

The client part is a shallow embedding of the local-cache layer
(`gameState.js`) and of the retry machinery of `edgeCaseHandler.js`;
JavaScript numbers that can hold fractional stat values are modelled
as `ℚ`, timestamps as `Nat`.
-/

/-- Largest value of a Move `u64`. -/
def U64_MAX : Nat := 18446744073709551615

namespace catnft

/-- The `CatNFT` object of `pomodoro_game::catnft` (the `id: UID` field is
an object handle and carries no game state). -/
structure CatNFT where
  cat_type : Nat
  hunger : Nat
  happiness : Nat
  health : Nat
  is_alive : Bool
  last_fed_time : Nat
  days_without_feeding : Nat
deriving Repr, DecidableEq

/-- `catnft::mint`: a fresh cat with hunger 50, happiness 50, health 100,
alive, `last_fed_time = 0` and no days without feeding. -/
def mint (cat_type : Nat) : CatNFT :=
  { cat_type := cat_type
    hunger := 50
    happiness := 50
    health := 100
    is_alive := true
    last_fed_time := 0
    days_without_feeding := 0 }

/-- `catnft::feed_cat`: reduce hunger by `food_value` (clamped at 0),
record the feeding time and reset `days_without_feeding`.  The function
performs no liveness check. -/
def feed_cat (cat : CatNFT) (food_value : Nat) (now : Nat) : CatNFT :=
  { cat with
    hunger := if food_value ≤ cat.hunger then cat.hunger - food_value else 0
    last_fed_time := now
    days_without_feeding := 0 }

/-- `catnft::play_with_cat`: raise happiness by `happiness_boost`, capped
at 100.  The u8 sum `happiness + happiness_boost` aborts above 255; no
liveness check is performed. -/
def play_with_cat (cat : CatNFT) (happiness_boost : Nat) : Option CatNFT :=
  if 255 < cat.happiness + happiness_boost then none
  else if cat.happiness + happiness_boost ≤ 100 then
    some { cat with happiness := cat.happiness + happiness_boost }
  else
    some { cat with happiness := 100 }

/-- Elapsed whole days since the last feeding, as computed by
`catnft::update_stats` (clamped at 0 when the clock is behind). -/
def daysPassed (cat : CatNFT) (now : Nat) : Nat :=
  (if cat.last_fed_time < now then now - cat.last_fed_time else 0) / 86400000

/-- The `days_without_feeding` value `update_stats` writes: raised to
the recomputed elapsed-day count when that count is larger. -/
def dwfAfter (cat : CatNFT) (now : Nat) : Nat :=
  if cat.days_without_feeding < daysPassed cat now then daysPassed cat now
  else cat.days_without_feeding

/-- The hunger value after one decay step (`+1`, capped at 100). -/
def hungerAfter (cat : CatNFT) : Nat :=
  if cat.hunger < 100 then cat.hunger + 1 else cat.hunger

/-- The happiness value after one decay step (`-1`, clamped at 0). -/
def happinessAfter (cat : CatNFT) : Nat :=
  if 0 < cat.happiness then cat.happiness - 1 else cat.happiness

/-- The health value after one decay step: drops by 1 (clamped at 0)
once the updated hunger exceeds 70. -/
def healthAfter (cat : CatNFT) : Nat :=
  if 70 < hungerAfter cat then
    (if 0 < cat.health then cat.health - 1 else cat.health)
  else cat.health

/-- `catnft::update_stats`: recompute `days_without_feeding` (the
`as u8` cast aborts when the recomputed count exceeds 255 and the field
is rewritten), apply one decay step to hunger/happiness/health in
sequence, then the death rule on the updated stats. -/
def update_stats (cat : CatNFT) (now : Nat) : Option CatNFT :=
  if cat.days_without_feeding < daysPassed cat now ∧ 255 < daysPassed cat now
  then none
  else if (100 ≤ hungerAfter cat ∧ happinessAfter cat = 0) ∨
      3 ≤ dwfAfter cat now then
    some { cat with
      hunger := hungerAfter cat, happiness := happinessAfter cat,
      health := 0, is_alive := false,
      days_without_feeding := dwfAfter cat now }
  else
    some { cat with
      hunger := hungerAfter cat, happiness := happinessAfter cat,
      health := healthAfter cat,
      days_without_feeding := dwfAfter cat now }

/-- The death predicate of the specification, read off a cat's stats. -/
def deathPred (c : CatNFT) : Prop :=
  (100 ≤ c.hunger ∧ c.happiness = 0) ∨ 3 ≤ c.days_without_feeding

instance (c : CatNFT) : Decidable (deathPred c) := by
  unfold deathPred; infer_instance

/-- One decay tick as seen at the transaction level: an aborted
`update_cat_stats` transaction leaves the cat unchanged. -/
def tickOrSkip (c : CatNFT) (t : Nat) : CatNFT :=
  (update_stats c t).getD c

/-- A trajectory of decay ticks at the given timestamps. -/
def runTicks (c : CatNFT) (ts : List Nat) : CatNFT :=
  ts.foldl tickOrSkip c

/-- The death predicate fails after every tick of the trajectory. -/
def noDeath : CatNFT → List Nat → Prop
  | _, [] => True
  | c, t :: ts => ¬ deathPred (tickOrSkip c t) ∧ noDeath (tickOrSkip c t) ts

end catnft

namespace pomodoro_game

/-- `DailyEarning` record of `pomodoro_game::pomodoro_game`. -/
structure DailyEarning where
  date : Nat
  amount : Nat
  sessions : Nat
deriving Repr, DecidableEq

/-- The `Treasury` shared object (the `Balance<OCT>` is its u64 value). -/
structure Treasury where
  oct_balance : Nat
  admin_address : Nat
  total_rewards_paid : Nat
  total_users_rewarded : Nat
deriving Repr, DecidableEq

/-- The `GameState` shared object; the three price `Table`s and the
per-user `daily_earnings` table are partial maps. -/
structure GameState where
  food_prices : Nat → Option Nat
  toy_prices : Nat → Option Nat
  cat_prices : Nat → Option Nat
  session_reward : Nat
  daily_earnings : Nat → Option DailyEarning
  burn_address : Nat
  admin_address : Nat

/-- The daily earning cap hard-coded in `complete_session`
(100.0 OCT with 9 decimals). -/
def DAILY_CAP : Nat := 100000000000

/-- The per-day session ("stamina") limit hard-coded in `complete_session`. -/
def DAILY_SESSION_LIMIT : Nat := 100

/-- `get_or_create_daily_earning` for one user's slot of the
`daily_earnings` table: create a fresh record for the current day if the
user has none, then reset the counters when the stored day differs. -/
def get_or_create_daily_earning (e : Option DailyEarning) (day : Nat) :
    DailyEarning :=
  let earning :=
    match e with
    | none => { date := day, amount := 0, sessions := 0 }
    | some r => r
  if earning.date ≠ day then { date := day, amount := 0, sessions := 0 }
  else earning

/-- The state a successful `complete_session` leaves behind, plus the
coin credited to the caller. -/
structure ClaimResult where
  treasury : Treasury
  earning : DailyEarning
  payout : Nat
deriving Repr, DecidableEq

/-- `pomodoro_game::complete_session`, acting on the treasury and on the
caller's daily-earning slot.  `none` models any abort: daily cap reached
(`abort 1`), session limit reached (`abort 2`), insufficient treasury
(`ETreasuryInsufficient`), or a u64 overflow in one of the additions. -/
def complete_session (tr : Treasury) (sr : Nat) (e : Option DailyEarning)
    (now : Nat) : Option ClaimResult :=
  let current_day := now / 86400000
  let base_reward := sr
  let user_earning := get_or_create_daily_earning e current_day
  if DAILY_CAP ≤ user_earning.amount then none
  else if DAILY_SESSION_LIMIT ≤ user_earning.sessions then none
  else
    let bonus := 0
    let total_reward := base_reward + bonus
    let remaining_cap := DAILY_CAP - user_earning.amount
    let final_reward := if remaining_cap < total_reward then remaining_cap
                        else total_reward
    if tr.oct_balance < final_reward then none
    else if U64_MAX < user_earning.amount + final_reward then none
    else if U64_MAX < user_earning.sessions + 1 then none
    else if U64_MAX < tr.total_rewards_paid + final_reward then none
    else if U64_MAX < tr.total_users_rewarded + 1 then none
    else some
      { treasury :=
          { oct_balance := tr.oct_balance - final_reward
            admin_address := tr.admin_address
            total_rewards_paid := tr.total_rewards_paid + final_reward
            total_users_rewarded := tr.total_users_rewarded + 1 }
        earning :=
          { date := user_earning.date
            amount := user_earning.amount + final_reward
            sessions := user_earning.sessions + 1 }
        payout := final_reward }

/-- The payout `complete_session` computes before the treasury check:
`min(sessionReward + bonus, dailyCap - amountEarnedToday)` with
`bonus = 0`. -/
def final_reward_of (sr : Nat) (e : Option DailyEarning) (now : Nat) : Nat :=
  min sr (DAILY_CAP - (get_or_create_daily_earning e (now / 86400000)).amount)

/-- `pomodoro_game::fund_treasury`: admin-only deposit of a whole coin
into the treasury balance (`coin::put` joins the two u64 balances and
aborts on overflow). -/
def fund_treasury (tr : Treasury) (payment : Nat) (sender : Nat) :
    Option Treasury :=
  if sender ≠ tr.admin_address then none
  else if U64_MAX < tr.oct_balance + payment then none
  else some { tr with oct_balance := tr.oct_balance + payment }

/-- The price `purchase_item` looks up: the food table for ids 1–5, the
toy table for ids 6–10, abort (`EInvalidItemId` or a missing table key)
otherwise. -/
def item_price (gs : GameState) (item_id : Nat) : Option Nat :=
  if 1 ≤ item_id ∧ item_id ≤ 5 then gs.food_prices item_id
  else if 6 ≤ item_id ∧ item_id ≤ 10 then gs.toy_prices item_id
  else none

/-- Observable effect of a successful `purchase_item`: the whole payment
coin is transferred to `burn_to`, and toy ids mint `toys_minted` toy
objects for the buyer. -/
structure PurchaseEffect where
  burn_to : Nat
  burn_amount : Nat
  toys_minted : Nat
deriving Repr, DecidableEq

/-- `pomodoro_game::purchase_item`: look the price up, abort unless the
payment covers `price * amount` (u64 product, aborts on overflow), then
transfer the entire payment coin to the game's admin address — the
address the module designates as its burn vault. -/
def purchase_item (gs : GameState) (payment : Nat) (item_id : Nat)
    (amount : Nat) : Option PurchaseEffect :=
  (item_price gs item_id).bind fun price =>
    if U64_MAX < price * amount then none
    else if payment < price * amount then none
    else some
      { burn_to := gs.admin_address
        burn_amount := payment
        toys_minted := if 6 ≤ item_id ∧ item_id ≤ 10 then amount else 0 }

/-- Observable effect of a successful `purchase_cat`. -/
structure CatPurchaseEffect where
  burn_to : Nat
  burn_amount : Nat
  minted : catnft.CatNFT
deriving Repr, DecidableEq

/-- `pomodoro_game::purchase_cat`: price lookup in `cat_prices`, payment
check, full payment to the admin burn vault, then mint one cat. -/
def purchase_cat (gs : GameState) (payment : Nat) (cat_type : Nat) :
    Option CatPurchaseEffect :=
  (gs.cat_prices cat_type).bind fun price =>
    if payment < price then none
    else some
      { burn_to := gs.admin_address
        burn_amount := payment
        minted := catnft.mint cat_type }

/-- The shared ledger objects a transaction can see.  The purchase entry
points receive only `&GameState` (read-only) and a payment coin, so a
purchase transaction leaves the treasury object untouched; the wrappers
below state the two entry points at this transaction level. -/
structure Ledger where
  treasury : Treasury
  game : GameState

/-- `purchase_item` as a transaction on the shared objects. -/
def purchase_item_entry (L : Ledger) (payment : Nat) (item_id : Nat)
    (amount : Nat) : Option (Treasury × PurchaseEffect) :=
  (purchase_item L.game payment item_id amount).map (fun eff => (L.treasury, eff))

/-- `purchase_cat` as a transaction on the shared objects. -/
def purchase_cat_entry (L : Ledger) (payment : Nat) (cat_type : Nat) :
    Option (Treasury × CatPurchaseEffect) :=
  (purchase_cat L.game payment cat_type).map (fun eff => (L.treasury, eff))

/-- The `GameState` installed by `init`, with the default price tables,
1.0 OCT session reward, zero burn address and the deployer as admin. -/
def initGameState (sender : Nat) : GameState :=
  { food_prices := fun id =>
      if id = 1 then some 1000000000
      else if id = 2 then some 2000000000
      else if id = 3 then some 3000000000
      else if id = 4 then some 4000000000
      else if id = 5 then some 5000000000
      else none
    toy_prices := fun id =>
      if id = 6 then some 10
      else if id = 7 then some 15
      else if id = 8 then some 20
      else if id = 9 then some 25
      else if id = 10 then some 30
      else none
    cat_prices := fun id =>
      if id = 0 then some 0
      else if id = 1 then some 50
      else if id = 2 then some 75
      else if id = 3 then some 150
      else none
    session_reward := 1000000000
    daily_earnings := fun _ => none
    burn_address := 0
    admin_address := sender }

/-- Result of replaying a list of `complete_session` attempts for one
user: final treasury, the user's final earning slot, and the list of
payouts of the successful attempts (an aborted attempt changes nothing). -/
structure RunResult where
  treasury : Treasury
  earning : Option DailyEarning
  payouts : List Nat
deriving Repr, DecidableEq

/-- Replay `complete_session` at each timestamp in turn. -/
def runClaims (sr : Nat) : Treasury → Option DailyEarning → List Nat → RunResult
  | tr, e, [] => { treasury := tr, earning := e, payouts := [] }
  | tr, e, t :: ts =>
    match complete_session tr sr e t with
    | none => runClaims sr tr e ts
    | some res =>
      let r := runClaims sr res.treasury (some res.earning) ts
      { treasury := r.treasury, earning := r.earning,
        payouts := res.payout :: r.payouts }

end pomodoro_game

namespace gameState

/-- The `catStats` record of the persisted local game state
(`gameState.js`).  Hunger and happiness are JavaScript numbers that take
fractional values under decay, so they are modelled as rationals. -/
structure CatStats where
  hunger : ℚ
  happiness : ℚ
  isAlive : Bool
  lastFedTime : Nat
  daysWithoutFeeding : Nat
deriving Repr, DecidableEq

/-- `feedCat` of `gameState.js`: a silent no-op when the cat is dead;
otherwise clamp hunger down by `foodValue`, raise happiness by
`Math.floor(foodValue / 2)` capped at 100, stamp the feeding time and
reset `daysWithoutFeeding`. -/
def feedCat (s : CatStats) (foodValue : ℚ) (now : Nat) : CatStats :=
  if s.isAlive then
    { hunger := max 0 (s.hunger - foodValue)
      happiness := min 100 (s.happiness + (Int.floor (foodValue / 2) : ℚ))
      isAlive := s.isAlive
      lastFedTime := now
      daysWithoutFeeding := 0 }
  else s

/-- `playWithCat` of `gameState.js`: raise happiness capped at 100; the
function performs no liveness check. -/
def playWithCat (s : CatStats) (happinessValue : ℚ) : CatStats :=
  { s with happiness := min 100 (s.happiness + happinessValue) }

end gameState

namespace edgeCaseHandler

/-- The two fields of an error object that `shouldRetryTransaction`
inspects; `none` models an absent (`undefined`) property.  A raw error
from `client.waitForTransaction` — the confirmation-wait step — carries
neither. -/
structure JsError where
  canRetry : Option Bool
  errorType : Option String
deriving Repr, DecidableEq

def kindRejected : String := "rejected"

def kindInsufficientFunds : String := "insufficient_funds"

def kindInsufficientGas : String := "insufficient_gas"

def kindNetworkError : String := "network_error"

def kindTimeout : String := "timeout"

def kindGasError : String := "gas_error"

/-- `shouldRetryTransaction` of `edgeCaseHandler.js`; the argument is
`none` when the JavaScript value is null/undefined. -/
def shouldRetryTransaction : Option JsError → Bool
  | none => false
  | some e =>
    if e.canRetry = some false then false
    else if e.errorType = some kindRejected then false
    else if e.errorType = some kindInsufficientFunds ∨
            e.errorType = some kindInsufficientGas then false
    else if e.errorType = some kindNetworkError ∨
            e.errorType = some kindTimeout ∨
            e.errorType = some kindGasError then true
    else decide (e.canRetry ≠ some false)

/-- Outcome of `executeWithRetry`, recording how many times the
transaction function was invoked (each invocation of the wrapped
function in `useCompleteSession` signs and submits the transaction). -/
inductive RetryOutcome where
  | success (attemptsUsed : Nat)
  | failure (e : JsError) (attemptsUsed : Nat)
deriving Repr, DecidableEq

/-- Number of invocations of the transaction function. -/
def attemptsUsed : RetryOutcome → Nat
  | .success n => n
  | .failure _ n => n

/-- The retry loop of `executeWithRetry`, with `outcomes i` the result of
the `i`-th invocation of the transaction function and `remaining` the
retries still allowed (`maxRetries - attempt`).  With no retries left the
loop throws the last error whether or not it was retryable, exactly as
the JavaScript `for` loop does when it falls off its last iteration. -/
def runRetry (outcomes : Nat → Except JsError Unit) :
    Nat → Nat → RetryOutcome
  | attempt, 0 =>
    match outcomes attempt with
    | .ok _ => .success (attempt + 1)
    | .error e => .failure e (attempt + 1)
  | attempt, r + 1 =>
    match outcomes attempt with
    | .ok _ => .success (attempt + 1)
    | .error e =>
      if shouldRetryTransaction (some e) then runRetry outcomes (attempt + 1) r
      else .failure e (attempt + 1)

/-- `executeWithRetry` of `edgeCaseHandler.js`: invoke the transaction
function, and on a failure that `shouldRetryTransaction` accepts, retry
up to `maxRetries` additional times; otherwise (or when retries are
exhausted) propagate the last error.  `useCompleteSession` calls it with
`maxRetries = 2`, and its transaction function rejects with the raw
confirmation-wait error when `waitForTransaction` fails. -/
def executeWithRetry (outcomes : Nat → Except JsError Unit)
    (maxRetries : Nat) : RetryOutcome :=
  runRetry outcomes 0 maxRetries

/-- An error rejected by the confirmation-wait step: a raw SDK error with
no `canRetry` and no `errorType` property. -/
def confirmWaitFailure : JsError := { canRetry := none, errorType := none }

end edgeCaseHandler

open pomodoro_game

/-- The record `get_or_create_daily_earning` yields is always stamped
with the requested day. -/
theorem get_or_create_date (e : Option DailyEarning) (day : Nat) :
    (get_or_create_daily_earning e day).date = day := by
  unfold get_or_create_daily_earning
  cases e with
  | none => simp
  | some r => dsimp only; split_ifs with h <;> simp_all

/-- A record already stamped with the current day is returned as is. -/
theorem get_or_create_keep (r : DailyEarning) (day : Nat) (h : r.date = day) :
    get_or_create_daily_earning (some r) day = r := by
  unfold get_or_create_daily_earning
  simp [h]

/-- A record stamped with a different day is reset before use. -/
theorem get_or_create_reset (r : DailyEarning) (day : Nat) (h : r.date ≠ day) :
    get_or_create_daily_earning (some r) day =
      { date := day, amount := 0, sessions := 0 } := by
  unfold get_or_create_daily_earning
  simp [h]

/-- Characterization of a successful `complete_session`: the guards that
must have passed and the exact state it leaves behind. -/
theorem complete_session_spec {tr : Treasury} {sr : Nat}
    {e : Option DailyEarning} {now : Nat} {res : ClaimResult}
    (h : complete_session tr sr e now = some res) :
    (get_or_create_daily_earning e (now / 86400000)).amount < DAILY_CAP ∧
    (get_or_create_daily_earning e (now / 86400000)).sessions <
      DAILY_SESSION_LIMIT ∧
    res.payout = min sr
      (DAILY_CAP - (get_or_create_daily_earning e (now / 86400000)).amount) ∧
    res.payout ≤ tr.oct_balance ∧
    res.treasury.oct_balance = tr.oct_balance - res.payout ∧
    res.treasury.admin_address = tr.admin_address ∧
    res.treasury.total_rewards_paid = tr.total_rewards_paid + res.payout ∧
    res.treasury.total_users_rewarded = tr.total_users_rewarded + 1 ∧
    res.earning.date =
      (get_or_create_daily_earning e (now / 86400000)).date ∧
    res.earning.amount =
      (get_or_create_daily_earning e (now / 86400000)).amount + res.payout ∧
    res.earning.sessions =
      (get_or_create_daily_earning e (now / 86400000)).sessions + 1 := by
  unfold complete_session at h
  simp only at h
  split_ifs at h with h1 h2 h3 h4 h5 h6 h7 h8 <;> simp only [Option.some.injEq] at h <;>
    (subst h
     exact ⟨by omega, by omega, by dsimp only; omega, by dsimp only; omega,
       rfl, rfl, rfl, rfl, rfl, rfl, rfl⟩)

/-- `complete_session` aborts whenever the treasury cannot cover the
computed payout. -/
theorem complete_session_insufficient {tr : Treasury} {sr : Nat}
    {e : Option DailyEarning} {now : Nat}
    (h : tr.oct_balance < final_reward_of sr e now) :
    complete_session tr sr e now = none := by
  unfold final_reward_of at h
  unfold complete_session
  simp only
  split_ifs <;> first | rfl | (exfalso; omega)

/-- Claim C3: every accepted `claimSessionReward` pays out exactly
`min(sessionReward + bonus, dailyCap - amountEarnedToday)` with
`bonus = 0`, subtracts that amount from the treasury balance, adds it to
`totalPaid` and to the user's `amountEarnedToday`, and increments
`totalPayouts` and `sessionsToday` by one. -/
theorem C3_claim_exact_effects (tr : Treasury) (sr : Nat)
    (e : Option DailyEarning) (now : Nat) (res : ClaimResult)
    (h : complete_session tr sr e now = some res) :
    res.payout = min (sr + 0)
      (DAILY_CAP - (get_or_create_daily_earning e (now / 86400000)).amount) ∧
    res.treasury.oct_balance = tr.oct_balance - res.payout ∧
    res.payout ≤ tr.oct_balance ∧
    res.treasury.total_rewards_paid = tr.total_rewards_paid + res.payout ∧
    res.earning.amount =
      (get_or_create_daily_earning e (now / 86400000)).amount + res.payout ∧
    res.treasury.total_users_rewarded = tr.total_users_rewarded + 1 ∧
    res.earning.sessions =
      (get_or_create_daily_earning e (now / 86400000)).sessions + 1 := by
  obtain ⟨-, -, hp, hb, h5, -, h7, h8, -, h10, h11⟩ := complete_session_spec h
  exact ⟨by omega, h5, hb, h7, h10, h8, h11⟩

def trC3 : Treasury :=
  { oct_balance := 2000000000, admin_address := 1,
    total_rewards_paid := 0, total_users_rewarded := 0 }

def resC3 : ClaimResult :=
  { treasury := { oct_balance := 1000000000, admin_address := 1,
                  total_rewards_paid := 1000000000, total_users_rewarded := 1 }
    earning := { date := 0, amount := 1000000000, sessions := 1 }
    payout := 1000000000 }

/-- Witness for C3 at a concrete fresh user and treasury. -/
theorem C3_witness :
    resC3.payout = min (1000000000 + 0)
      (DAILY_CAP - (get_or_create_daily_earning none (0 / 86400000)).amount) :=
  (C3_claim_exact_effects trC3 1000000000 none 0 resC3 (by decide)).1

/-- Claim C2: the treasury balance is never negative (the balance check
precedes the subtraction, so the payout never exceeds the balance) and is
non-increasing under every operation except `fundTreasury`, the only
operation that increases it — by exactly the deposited coin's value and
only for the admin; `claimSessionReward` aborts with no state change
whenever `treasury.balance < payout`, and the purchase entry points never
touch the treasury. -/
theorem C2_treasury_monotone (tr : Treasury) (sr : Nat)
    (e : Option DailyEarning) (now payment sender : Nat) (L : Ledger)
    (item_id amount cat_type : Nat) :
    (∀ res, complete_session tr sr e now = some res →
        res.treasury.oct_balance + res.payout = tr.oct_balance ∧
        res.treasury.oct_balance ≤ tr.oct_balance) ∧
    (tr.oct_balance < final_reward_of sr e now →
        complete_session tr sr e now = none) ∧
    (∀ tr', fund_treasury tr payment sender = some tr' →
        sender = tr.admin_address ∧
        tr'.oct_balance = tr.oct_balance + payment) ∧
    (sender ≠ tr.admin_address → fund_treasury tr payment sender = none) ∧
    (∀ p eff, purchase_item_entry L payment item_id amount = some (p, eff) →
        p = L.treasury) ∧
    (∀ p eff, purchase_cat_entry L payment cat_type = some (p, eff) →
        p = L.treasury) := by
  refine ⟨?_, ?_, ?_, ?_, ?_, ?_⟩
  · intro res h
    obtain ⟨-, -, -, hb, h5, -⟩ := complete_session_spec h
    omega
  · exact complete_session_insufficient
  · intro tr' h
    unfold fund_treasury at h
    split_ifs at h with hs ho
    simp only [Option.some.injEq] at h
    subst h
    exact ⟨by omega, rfl⟩
  · intro hs
    simp [fund_treasury, hs]
  · intro p eff h
    cases hpi : purchase_item L.game payment item_id amount with
    | none => simp [purchase_item_entry, hpi] at h
    | some x =>
      simp [purchase_item_entry, hpi] at h
      exact h.1.symm
  · intro p eff h
    cases hpc : purchase_cat L.game payment cat_type with
    | none => simp [purchase_cat_entry, hpc] at h
    | some x =>
      simp [purchase_cat_entry, hpc] at h
      exact h.1.symm

def trC2 : Treasury :=
  { oct_balance := 0, admin_address := 7,
    total_rewards_paid := 0, total_users_rewarded := 0 }

def trC2' : Treasury :=
  { oct_balance := 5, admin_address := 7,
    total_rewards_paid := 0, total_users_rewarded := 0 }

def ledgerC2 : Ledger := { treasury := trC2, game := initGameState 9 }

/-- Witness for C2: the admin funds the treasury by exactly the coin's
value. -/
theorem C2_witness :
    (7 : Nat) = trC2.admin_address ∧
    trC2'.oct_balance = trC2.oct_balance + 5 :=
  (C2_treasury_monotone trC2 0 none 0 5 7 ledgerC2 0 0 0).2.2.1 trC2' (by decide)

/-- Claim C8: a claim arriving on a new day first resets the user's
`DailyEarningRecord` (amount 0, sessions 0, current day) and only then
applies the claim, so a user who exhausted yesterday's cap receives a
full `sessionReward` payout today. -/
theorem C8_day_rollover (tr : Treasury) (sr : Nat) (r : DailyEarning)
    (now : Nat)
    (hroll : r.date ≠ now / 86400000)
    (hsr : sr ≤ DAILY_CAP)
    (hbal : sr ≤ tr.oct_balance)
    (hpaid : tr.total_rewards_paid + sr ≤ U64_MAX)
    (husers : tr.total_users_rewarded < U64_MAX) :
    get_or_create_daily_earning (some r) (now / 86400000) =
      { date := now / 86400000, amount := 0, sessions := 0 } ∧
    complete_session tr sr (some r) now = some
      { treasury :=
          { oct_balance := tr.oct_balance - sr
            admin_address := tr.admin_address
            total_rewards_paid := tr.total_rewards_paid + sr
            total_users_rewarded := tr.total_users_rewarded + 1 }
        earning := { date := now / 86400000, amount := sr, sessions := 1 }
        payout := sr } := by
  refine ⟨get_or_create_reset r _ hroll, ?_⟩
  unfold complete_session
  simp only [get_or_create_reset r _ hroll]
  simp only [DAILY_CAP, DAILY_SESSION_LIMIT, U64_MAX] at hsr hpaid husers ⊢
  split_ifs with h1 h2 h3 h4 h5 h6 h7 h8 <;> first | (exfalso; omega) | simp

/-- A user with no record yet starts from a zeroed record of the
current day. -/
theorem get_or_create_none (day : Nat) :
    get_or_create_daily_earning none day =
      { date := day, amount := 0, sessions := 0 } := by
  unfold get_or_create_daily_earning
  simp

/-- Replaying claims preserves the record invariant
`amount ≤ dailyCap ∧ sessions ≤ dailySessionLimit`. -/
theorem runClaims_inv (sr : Nat) :
    ∀ (ts : List Nat) (tr : Treasury) (e : Option DailyEarning),
    (∀ r, e = some r → r.amount ≤ DAILY_CAP ∧ r.sessions ≤ DAILY_SESSION_LIMIT) →
    ∀ r, (runClaims sr tr e ts).earning = some r →
      r.amount ≤ DAILY_CAP ∧ r.sessions ≤ DAILY_SESSION_LIMIT := by
  intro ts
  induction ts with
  | nil =>
    intro tr e he r hr
    exact he r hr
  | cons t ts ih =>
    intro tr e he r hr
    simp only [runClaims] at hr
    cases hc : complete_session tr sr e t with
    | none =>
      rw [hc] at hr
      exact ih tr e he r hr
    | some res =>
      rw [hc] at hr
      simp only at hr
      refine ih res.treasury (some res.earning) ?_ r hr
      intro r' hr'
      obtain rfl : res.earning = r' := by
        simpa using hr'
      obtain ⟨ha, hs, hp, -, -, -, -, -, -, h10, h11⟩ := complete_session_spec hc
      constructor <;> omega

/-- Replaying same-day claims: the payouts sum to at most the remaining
cap and their number to at most the remaining session budget. -/
theorem runClaims_caps (sr D : Nat) :
    ∀ (ts : List Nat) (tr : Treasury) (e : Option DailyEarning),
    (∀ t ∈ ts, t / 86400000 = D) →
    (runClaims sr tr e ts).payouts.sum ≤
      DAILY_CAP - (get_or_create_daily_earning e D).amount ∧
    (runClaims sr tr e ts).payouts.length ≤
      DAILY_SESSION_LIMIT - (get_or_create_daily_earning e D).sessions := by
  intro ts
  induction ts with
  | nil =>
    intro tr e hday
    simp [runClaims]
  | cons t ts ih =>
    intro tr e hday
    have ht : t / 86400000 = D := hday t (by simp)
    have hday' : ∀ s ∈ ts, s / 86400000 = D := fun s hs => hday s (by simp [hs])
    simp only [runClaims]
    cases hc : complete_session tr sr e t with
    | none =>
      exact ih tr e hday'
    | some res =>
      simp only
      obtain ⟨ha, hs, hp, -, -, -, -, -, hd, h10, h11⟩ := complete_session_spec hc
      rw [ht] at ha hs hp hd h10 h11
      have hdate : res.earning.date = D := by
        rw [hd, get_or_create_date]
      have hkeep : get_or_create_daily_earning (some res.earning) D =
          res.earning := get_or_create_keep _ _ hdate
      have hrest := ih res.treasury (some res.earning) hday'
      rw [hkeep] at hrest
      simp only [List.sum_cons, List.length_cons]
      constructor <;> omega

/-- Claim C1: within one calendar day, a user's successful
`claimSessionReward` payouts sum to at most the daily cap and number at
most the daily session limit, and after every operation the user's
record satisfies `amountEarnedToday ≤ dailyCap` and
`sessionsToday ≤ dailySessionLimit`. -/
theorem C1_daily_caps (D : Nat) (ts : List Nat) (tr : Treasury) (sr : Nat)
    (hday : ∀ t ∈ ts, t / 86400000 = D) :
    (runClaims sr tr none ts).payouts.sum ≤ DAILY_CAP ∧
    (runClaims sr tr none ts).payouts.length ≤ DAILY_SESSION_LIMIT ∧
    (∀ r, (runClaims sr tr none ts).earning = some r →
        r.amount ≤ DAILY_CAP ∧ r.sessions ≤ DAILY_SESSION_LIMIT) := by
  have h1 := runClaims_caps sr D ts tr none hday
  rw [get_or_create_none] at h1
  have h2 := runClaims_inv sr ts tr none (by intro r hr; cases hr)
  exact ⟨by omega, by omega, h2⟩

def trC1 : Treasury :=
  { oct_balance := 5000000000, admin_address := 1,
    total_rewards_paid := 0, total_users_rewarded := 0 }

/-- Witness for C1 at two same-day claims against a funded treasury. -/
theorem C1_witness :
    (runClaims 1000000000 trC1 none [0, 1]).payouts.sum ≤ DAILY_CAP :=
  (C1_daily_caps 0 [0, 1] trC1 1000000000 (by decide)).1

def rC8 : DailyEarning := { date := 0, amount := DAILY_CAP, sessions := 100 }

def trC8 : Treasury :=
  { oct_balance := 10000000000, admin_address := 1,
    total_rewards_paid := 0, total_users_rewarded := 0 }

/-- Witness for C8: a user capped out on day 0 is reset on day 1. -/
theorem C8_witness :
    get_or_create_daily_earning (some rC8) (86400000 / 86400000) =
      { date := 86400000 / 86400000, amount := 0, sessions := 0 } :=
  (C8_day_rollover trC8 1000000000 rC8 86400000 (by decide) (by decide)
    (by decide) (by decide) (by decide)).1

/-- After a successful `update_stats` on a live cat, the cat is dead with
health 0 exactly when the death predicate holds of its updated stats. -/
theorem update_stats_death_iff {c c' : catnft.CatNFT} {now : Nat}
    (halive : c.is_alive = true) (h : catnft.update_stats c now = some c') :
    (c'.is_alive = false ∧ c'.health = 0) ↔
      ((100 ≤ c'.hunger ∧ c'.happiness = 0) ∨ 3 ≤ c'.days_without_feeding) := by
  unfold catnft.update_stats at h
  split_ifs at h with h1 h2 <;> simp only [Option.some.injEq] at h <;> subst h
  · exact iff_of_true ⟨rfl, rfl⟩ h2
  · exact iff_of_false (by simp [halive]) h2

/-- A successful tick that does not reach the death predicate leaves
`is_alive` untouched. -/
theorem update_stats_alive {c c' : catnft.CatNFT} {t : Nat}
    (h : catnft.update_stats c t = some c')
    (hnd : ¬ catnft.deathPred c') : c'.is_alive = c.is_alive := by
  unfold catnft.update_stats at h
  split_ifs at h with h1 h2 <;> simp only [Option.some.injEq] at h <;> subst h
  · exact absurd h2 (by simpa [catnft.deathPred] using hnd)
  · rfl

/-- Along any decay trajectory on which the death predicate never holds,
the cat stays alive. -/
theorem runTicks_alive :
    ∀ (ts : List Nat) (c : catnft.CatNFT), c.is_alive = true →
      catnft.noDeath c ts → (catnft.runTicks c ts).is_alive = true := by
  intro ts
  induction ts with
  | nil =>
    intro c h _
    simpa [catnft.runTicks] using h
  | cons t ts ih =>
    intro c h hnd
    unfold catnft.noDeath at hnd
    obtain ⟨hnd1, hnd2⟩ := hnd
    have halive1 : (catnft.tickOrSkip c t).is_alive = true := by
      unfold catnft.tickOrSkip at hnd1 ⊢
      cases hc : catnft.update_stats c t with
      | none => simpa using h
      | some c' =>
        rw [hc] at hnd1
        simp only [Option.getD] at hnd1 ⊢
        rw [update_stats_alive hc hnd1]
        exact h
    have : catnft.runTicks c (t :: ts) = catnft.runTicks (catnft.tickOrSkip c t) ts := by
      simp [catnft.runTicks]
    rw [this]
    exact ih _ halive1 hnd2

/-- One tick on a cat last fed exactly four days ago succeeds and kills
it: the recomputed `days_without_feeding` is at least 4. -/
theorem update_stats_four_days (c : catnft.CatNFT) :
    ∃ d, catnft.update_stats c (c.last_fed_time + 4 * 86400000) = some d ∧
      d.is_alive = false ∧ d.health = 0 := by
  have hdp : catnft.daysPassed c (c.last_fed_time + 4 * 86400000) = 4 := by
    unfold catnft.daysPassed
    rw [if_pos (by omega)]
    have h2 : c.last_fed_time + 4 * 86400000 - c.last_fed_time = 4 * 86400000 := by
      omega
    rw [h2]
  have hdwf : 3 ≤ catnft.dwfAfter c (c.last_fed_time + 4 * 86400000) := by
    unfold catnft.dwfAfter
    rw [hdp]
    split_ifs <;> omega
  unfold catnft.update_stats
  rw [hdp]
  rw [if_neg (by omega)]
  rw [if_pos (Or.inr hdwf)]
  exact ⟨_, rfl, rfl, rfl⟩

/-- Claim C5: after a DecayTick on a live pet, the pet is dead with
health 0 iff `(hunger ≥ 100 ∧ happiness = 0) ∨ daysWithoutFeeding ≥ 3`
holds of the post-state; along any trajectory on which the predicate
never holds the pet stays alive; and a pet whose `lastFedTime` is 4 days
in the past dies (health 0) after one tick. -/
theorem C5_death_predicate (c c' : catnft.CatNFT) (now : Nat)
    (ts : List Nat) (halive : c.is_alive = true) :
    (catnft.update_stats c now = some c' →
      ((c'.is_alive = false ∧ c'.health = 0) ↔
        ((100 ≤ c'.hunger ∧ c'.happiness = 0) ∨
          3 ≤ c'.days_without_feeding))) ∧
    (catnft.noDeath c ts → (catnft.runTicks c ts).is_alive = true) ∧
    (∃ d, catnft.update_stats c (c.last_fed_time + 4 * 86400000) = some d ∧
      d.is_alive = false ∧ d.health = 0) :=
  ⟨fun h => update_stats_death_iff halive h,
   fun hnd => runTicks_alive ts c halive hnd,
   update_stats_four_days c⟩

def catC5 : catnft.CatNFT := catnft.mint 1

def catC5' : catnft.CatNFT :=
  { cat_type := 1, hunger := 51, happiness := 49, health := 100,
    is_alive := true, last_fed_time := 0, days_without_feeding := 0 }

/-- Witness for C5: the death-predicate equivalence after one concrete
tick on a freshly minted cat. -/
theorem C5_witness :
    (catC5'.is_alive = false ∧ catC5'.health = 0) ↔
      ((100 ≤ catC5'.hunger ∧ catC5'.happiness = 0) ∨
        3 ≤ catC5'.days_without_feeding) :=
  (C5_death_predicate catC5 catC5' 0 [] (by decide)).1 (by decide)

/-- Claim C10: `update_stats` is partial — it aborts exactly when the
recomputed elapsed-day count exceeds both the stored
`days_without_feeding` and 255 (the `as u8` cast), and since `mint` sets
`last_fed_time = 0`, the first tick on a never-fed pet aborts for every
clock value at least 256 days past the epoch. -/
theorem C10_update_stats_aborts (cat_type now : Nat) (c : catnft.CatNFT)
    (hlate : 256 * 86400000 ≤ now) :
    catnft.update_stats (catnft.mint cat_type) now = none ∧
    (catnft.update_stats c now = none ↔
      (c.days_without_feeding < catnft.daysPassed c now ∧
        255 < catnft.daysPassed c now)) := by
  have hgen : ∀ (d : catnft.CatNFT),
      catnft.update_stats d now = none ↔
        (d.days_without_feeding < catnft.daysPassed d now ∧
          255 < catnft.daysPassed d now) := by
    intro d
    unfold catnft.update_stats
    split_ifs with h1 h2
    · exact iff_of_true rfl h1
    · exact iff_of_false (by simp) h1
    · exact iff_of_false (by simp) h1
  refine ⟨?_, hgen c⟩
  rw [hgen]
  have hdp : catnft.daysPassed (catnft.mint cat_type) now = now / 86400000 := by
    unfold catnft.daysPassed catnft.mint
    dsimp only
    rw [if_pos (by omega)]
    omega
  rw [hdp]
  have h0 : (catnft.mint cat_type).days_without_feeding = 0 := rfl
  rw [h0]
  omega

/-- Witness for C10: the first tick on a freshly minted cat aborts at a
clock exactly 256 days past the epoch. -/
theorem C10_witness :
    catnft.update_stats (catnft.mint 1) (256 * 86400000) = none :=
  (C10_update_stats_aborts 1 (256 * 86400000) (catnft.mint 2)
    (by decide)).1

/-- The counterexample to claim C6 as stated: the on-chain
`catnft::feed_cat` performs no liveness check, so feeding a dead cat
changes its fields (hunger drops, `last_fed_time` is stamped,
`days_without_feeding` is cleared). -/
def deadCatC6 : catnft.CatNFT :=
  { cat_type := 1, hunger := 100, happiness := 0, health := 0,
    is_alive := false, last_fed_time := 0, days_without_feeding := 4 }

/-- Claim C6 is false as stated: `feed_cat` on a dead pet does not leave
every field unchanged. -/
theorem C6_counterexample :
    deadCatC6.is_alive = false ∧
    catnft.feed_cat deadCatC6 20 1000 ≠ deadCatC6 := by decide

/-- Claim C6 (amended): only the local-cache feed is a dead-pet no-op —
`gameState.feedCat` returns the pet unchanged when `isAlive` is false —
while the on-chain `catnft::feed_cat` unconditionally stamps
`last_fed_time` and clears `days_without_feeding`, and `playWithCat`
raises a dead pet's happiness. -/
theorem C6_dead_noop_amended (s : gameState.CatStats) (c : catnft.CatNFT)
    (fv hv : ℚ) (fvN now : Nat)
    (hdead : s.isAlive = false) :
    gameState.feedCat s fv now = s ∧
    (catnft.feed_cat c fvN now).last_fed_time = now ∧
    (catnft.feed_cat c fvN now).days_without_feeding = 0 ∧
    (gameState.playWithCat s hv).happiness = min 100 (s.happiness + hv) := by
  refine ⟨?_, rfl, rfl, rfl⟩
  unfold gameState.feedCat
  simp [hdead]

def sDeadC6 : gameState.CatStats :=
  { hunger := 50, happiness := 50, isAlive := false,
    lastFedTime := 0, daysWithoutFeeding := 2 }

/-- Witness for amended C6: the local-cache feed leaves a concrete dead
pet unchanged. -/
theorem C6_witness : gameState.feedCat sDeadC6 20 9 = sDeadC6 :=
  (C6_dead_noop_amended sDeadC6 deadCatC6 20 5 20 9 (by decide)).1

/-- Claim C7: feeding an alive pet sets
`hunger = max(0, hunger - foodValue)`,
`happiness = min(100, happiness + floor(foodValue/2))`,
`lastFedTime = now` and `daysWithoutFeeding = 0`; in particular
`foodValue = 20` from hunger 50 / happiness 50 yields exactly 30 / 60. -/
theorem C7_feed_semantics (s : gameState.CatStats) (fv : ℚ) (now : Nat)
    (halive : s.isAlive = true) :
    gameState.feedCat s fv now =
      { hunger := max 0 (s.hunger - fv)
        happiness := min 100 (s.happiness + (Int.floor (fv / 2) : ℚ))
        isAlive := true
        lastFedTime := now
        daysWithoutFeeding := 0 } ∧
    gameState.feedCat
        { hunger := 50, happiness := 50, isAlive := true,
          lastFedTime := s.lastFedTime,
          daysWithoutFeeding := s.daysWithoutFeeding } 20 now =
      { hunger := 30, happiness := 60, isAlive := true,
        lastFedTime := now, daysWithoutFeeding := 0 } := by
  constructor
  · unfold gameState.feedCat
    rw [if_pos halive, halive]
  · unfold gameState.feedCat
    rw [if_pos rfl]
    have hfl : (Int.floor ((20 : ℚ) / 2) : ℚ) = 10 := by norm_num
    rw [hfl]
    norm_num

def sAliveC7 : gameState.CatStats :=
  { hunger := 50, happiness := 50, isAlive := true,
    lastFedTime := 0, daysWithoutFeeding := 0 }

/-- Witness for C7: the concrete 20-food feeding scenario. -/
theorem C7_witness :
    gameState.feedCat
        { hunger := 50, happiness := 50, isAlive := true,
          lastFedTime := sAliveC7.lastFedTime,
          daysWithoutFeeding := sAliveC7.daysWithoutFeeding } 20 5 =
      { hunger := 30, happiness := 60, isAlive := true,
        lastFedTime := 5, daysWithoutFeeding := 0 } :=
  (C7_feed_semantics sAliveC7 20 5 rfl).2

/-- Claim C9: a successful purchase requires the payment to cover the
looked-up price (times quantity for items), transfers the entire payment
coin — excess included — to the game's fixed burn destination (the admin
address the module uses as its burn vault), and leaves the treasury
untouched. -/
theorem C9_purchase_burn_sink (L : Ledger) (payment item_id amount cat_type : Nat) :
    (∀ p eff, purchase_item_entry L payment item_id amount = some (p, eff) →
        eff.burn_to = L.game.admin_address ∧
        eff.burn_amount = payment ∧
        p = L.treasury ∧
        (∀ price, item_price L.game item_id = some price →
            price * amount ≤ payment)) ∧
    (∀ p eff, purchase_cat_entry L payment cat_type = some (p, eff) →
        eff.burn_to = L.game.admin_address ∧
        eff.burn_amount = payment ∧
        p = L.treasury ∧
        (∀ price, L.game.cat_prices cat_type = some price →
            price ≤ payment)) := by
  constructor
  · intro p eff h
    unfold purchase_item_entry purchase_item at h
    cases hip : item_price L.game item_id with
    | none => rw [hip] at h; simp at h
    | some price =>
      rw [hip] at h
      rw [Option.some_bind'] at h
      split_ifs at h with h1 h2 h3 <;> simp at h <;>
        (obtain ⟨hp, heff⟩ := h
         subst hp
         subst heff
         refine ⟨rfl, rfl, rfl, ?_⟩
         intro price' hp'
         injection hp' with hp'
         subst hp'
         omega)
  · intro p eff h
    unfold purchase_cat_entry purchase_cat at h
    cases hip : L.game.cat_prices cat_type with
    | none => rw [hip] at h; simp at h
    | some price =>
      rw [hip] at h
      rw [Option.some_bind'] at h
      split_ifs at h with h1 <;> simp at h
      obtain ⟨hp, heff⟩ := h
      subst hp
      subst heff
      refine ⟨rfl, rfl, rfl, ?_⟩
      intro price' hp'
      injection hp' with hp'
      subst hp'
      omega

def trC9 : Treasury :=
  { oct_balance := 3, admin_address := 9,
    total_rewards_paid := 0, total_users_rewarded := 0 }

def ledgerC9 : Ledger := { treasury := trC9, game := initGameState 9 }

def effC9 : CatPurchaseEffect :=
  { burn_to := 9, burn_amount := 60, minted := catnft.mint 1 }

/-- Witness for C9: buying cat type 1 (price 50) with a 60-unit coin
burns the whole 60 units to the admin address. -/
theorem C9_witness : effC9.burn_to = ledgerC9.game.admin_address :=
  ((C9_purchase_burn_sink ledgerC9 60 1 1 1).2 trC9 effC9 (by decide)).1

/-- Every run of the retry loop invokes the transaction function at
least once past the starting attempt index. -/
theorem attemptsUsed_runRetry_ge
    (outcomes : Nat → Except edgeCaseHandler.JsError Unit) :
    ∀ (remaining attempt : Nat),
      attempt + 1 ≤
        edgeCaseHandler.attemptsUsed
          (edgeCaseHandler.runRetry outcomes attempt remaining) := by
  intro remaining
  induction remaining with
  | zero =>
    intro a
    cases h : outcomes a <;>
      simp [edgeCaseHandler.runRetry, h, edgeCaseHandler.attemptsUsed]
  | succ r ih =>
    intro a
    cases h : outcomes a with
    | ok v => simp [edgeCaseHandler.runRetry, h, edgeCaseHandler.attemptsUsed]
    | error e =>
      simp only [edgeCaseHandler.runRetry, h]
      split_ifs with hs
      · have := ih (a + 1)
        omega
      · simp [edgeCaseHandler.attemptsUsed]

/-- Claim C4 is false as stated: an unclassified confirmation-wait error
is treated as retryable, and `executeWithRetry` with the orchestrator's
budget of 2 retries invokes the submission function three times — two
automatic resubmissions after the first confirmation-wait failure. -/
theorem C4_counterexample :
    edgeCaseHandler.shouldRetryTransaction
      (some edgeCaseHandler.confirmWaitFailure) = true ∧
    edgeCaseHandler.executeWithRetry
        (fun _ => Except.error edgeCaseHandler.confirmWaitFailure) 2 =
      edgeCaseHandler.RetryOutcome.failure
        edgeCaseHandler.confirmWaitFailure 3 := by
  decide

/-- Claim C4 (amended): a confirmation-wait failure is rejected through
the same channel as a submission failure; because the raw error carries
neither a `canRetry` nor an `errorType` property,
`shouldRetryTransaction` deems it retryable and `executeWithRetry`
automatically re-invokes the submission function (at least one
resubmission whenever the retry budget is positive), surfacing the last
error only after the budget is exhausted rather than as a distinct
pending outcome. -/
theorem C4_resubmit_amended (e : edgeCaseHandler.JsError)
    (outcomes : Nat → Except edgeCaseHandler.JsError Unit) (m : Nat)
    (hc : e.canRetry = none) (ht : e.errorType = none)
    (h0 : outcomes 0 = Except.error e) (hm : 0 < m) :
    edgeCaseHandler.shouldRetryTransaction (some e) = true ∧
    2 ≤ edgeCaseHandler.attemptsUsed
        (edgeCaseHandler.executeWithRetry outcomes m) := by
  have hs : edgeCaseHandler.shouldRetryTransaction (some e) = true := by
    simp [edgeCaseHandler.shouldRetryTransaction, hc, ht]
  refine ⟨hs, ?_⟩
  unfold edgeCaseHandler.executeWithRetry
  obtain ⟨m', rfl⟩ : ∃ m', m = m' + 1 := ⟨m - 1, by omega⟩
  simp only [edgeCaseHandler.runRetry, h0, hs, if_true]
  have := attemptsUsed_runRetry_ge outcomes m' (0 + 1)
  omega

/-- Witness for amended C4: the concrete confirmation-wait error under
the orchestrator's budget of 2 retries. -/
theorem C4_witness :
    edgeCaseHandler.shouldRetryTransaction
      (some edgeCaseHandler.confirmWaitFailure) = true ∧
    2 ≤ edgeCaseHandler.attemptsUsed
        (edgeCaseHandler.executeWithRetry
          (fun _ => Except.error edgeCaseHandler.confirmWaitFailure) 2) :=
  C4_resubmit_amended edgeCaseHandler.confirmWaitFailure
    (fun _ => Except.error edgeCaseHandler.confirmWaitFailure) 2
    rfl rfl rfl (by decide)
